import Mathlib

/-!
Verification of the client-side authentication session manager of the
code-training-discord frontend.

The development shallowly embeds:

* `stores/authStore.ts` — the Zustand session store (`setAuth`,
  `setAccessToken`, `logout`);
* `api/auth.ts` — `refreshTokenApi` (the refresh endpoint client) and the
  login response shape (`schemas/loginSchema.ts`);
* `hooks/useLogin.ts` — the store update performed on a successful login;
* `utils/authFetch.ts` — the authenticated fetch wrapper with its
  module-level refresh coordination state (`isRefreshing`, `failedQueue`,
  `processQueue`).

`authFetch` is asynchronous JavaScript running on a single event loop, so it
is embedded as a small-step state machine: a system state holds the session
store, the module-level flag and queue, and one `Phase` per caller; an
event (`Ev`) is the completion of one outstanding `await` (or the start of a
call, or the run of a queued continuation), and `step` executes the
corresponding synchronous stretch of the source code.  Every synchronous
stretch of `authFetch` between two `await`s is one `step` branch, mirroring
the cooperative scheduling model of the event loop.  Schedules (`List Ev`)
are arbitrary, so theorems quantified over schedules cover all
interleavings; events that do not correspond to an outstanding await are
no-ops.
-/

namespace AuthCore

/-- JavaScript truthiness of a nullable string (`refreshToken`,
`accessToken` in the source are `string | null`, and missing arguments are
`undefined`; both `null`/`undefined` and `""` are falsy).  `none` models
null/undefined. -/
def truthy : Option String → Bool
  | none => false
  | some s => s != ""

/-- JavaScript `a || b` for a nullable string `a` with string default `b`
(as in `error.detail || "..."` in `api/auth.ts`). -/
def jsOr (a : Option String) (b : String) : String :=
  match a with
  | none => b
  | some s => if s = "" then b else s

/-- User record from `stores/authStore.ts` (`interface User`). -/
structure User where
  id : String
  name : String
  username : String
deriving DecidableEq, Repr

/-- Session store state from `stores/authStore.ts` (`interface AuthState`,
data fields only).  `accessToken`/`refreshToken` are `string | null` in the
source; `none` models null (and the `undefined` produced by a missing
argument). -/
structure AuthState where
  isAuthenticated : Bool
  user : Option User
  accessToken : Option String
  refreshToken : Option String
deriving DecidableEq, Repr

/-- The initial store state of `stores/authStore.ts` (the object literal
passed to `create`). -/
def initialAuthState : AuthState :=
  { isAuthenticated := false, user := none, accessToken := none, refreshToken := none }

/-- `setAuth` from `stores/authStore.ts`: one `set` call replacing
`isAuthenticated`, `user`, `accessToken`, `refreshToken`.  The token
parameters are declared `string` in TypeScript but the program's own call
sites (`hooks/useLogin.ts`, tests) invoke `setAuth` with the third argument
missing, which at JavaScript runtime passes `undefined`; the parameters are
therefore embedded as `Option String`, `none` standing for that
`undefined`/null. -/
def setAuth (user : User) (accessToken refreshToken : Option String)
    (_s : AuthState) : AuthState :=
  { isAuthenticated := true, user := some user,
    accessToken := accessToken, refreshToken := refreshToken }

/-- `setAccessToken` from `stores/authStore.ts`: one `set` call replacing
only `accessToken` (Zustand merges the partial object into the state). -/
def setAccessToken (accessToken : String) (s : AuthState) : AuthState :=
  { s with accessToken := some accessToken }

/-- `logout` from `stores/authStore.ts`: one `set` call clearing all four
fields. -/
def logout (_s : AuthState) : AuthState :=
  { isAuthenticated := false, user := none, accessToken := none, refreshToken := none }

/-- An HTTP response as observed by `authFetch` (status plus body text). -/
structure Response where
  status : Nat
  body : String
deriving DecidableEq, Repr

/-- `RefreshTokenResponse` from `api/auth.ts`. -/
structure RefreshTokenResponse where
  access_token : String
  refresh_token : String
  token_type : String
  expires_in : Nat
deriving DecidableEq, Repr

/-- Outcome of the `fetch` inside `refreshTokenApi`: a network-level
rejection, or a response with a status, an optional `detail` field in the
error body, and (for success bodies) the parsed `RefreshTokenResponse`
payload. -/
inductive RefreshHttp where
  | netError (msg : String)
  | resp (status : Nat) (detail : Option String) (payload : RefreshTokenResponse)
deriving DecidableEq, Repr

/-- `Response.ok` of the Fetch API: status in 200..299. -/
def respOk (status : Nat) : Bool :=
  200 ≤ status && status < 300

/-- `refreshTokenApi` from `api/auth.ts`: POSTs the refresh token; if the
response is not ok it throws `new Error(error.detail || "トークンのリフレッシュに失敗しました")`,
otherwise it returns the parsed body.  `Except.error` carries the thrown
error's message; a rejected `fetch` propagates as a thrown error too. -/
def refreshTokenApi : RefreshHttp → Except String RefreshTokenResponse
  | .netError m => .error m
  | .resp status detail payload =>
    if respOk status then .ok payload
    else .error (jsOr detail "トークンのリフレッシュに失敗しました")

/-- `LoginResponse` from `schemas/loginSchema.ts`.  Note: it has no
`refresh_token` field. -/
structure LoginResponse where
  id : String
  name : String
  username : String
  access_token : String
  token_type : String
  next : Option String
deriving DecidableEq, Repr

/-- The store update performed by `useLogin`'s `onSuccess` callback
(`hooks/useLogin.ts`): `setAuth({id, name, username}, response.access_token)`
— called with only two arguments, so the `refreshToken` parameter receives
JavaScript `undefined`, embedded as `none`. -/
def useLoginOnSuccess (response : LoginResponse) (s : AuthState) : AuthState :=
  setAuth ⟨response.id, response.name, response.username⟩
    (some response.access_token) none s

/-! ## Event-loop semantics of `authFetch` (`utils/authFetch.ts`)

One caller = one invocation of `authFetch`, identified by a `Nat`.  A
caller's `Phase` records which `await` it is suspended at (or how it
finished), together with the data the source keeps across that suspension:

* `notStarted` — the invocation has not run yet;
* `awaitingFirst snapA snapR` — the synchronous prologue ran: it
  destructured `accessToken`/`refreshToken` from `useAuthStore.getState()`
  (the snapshots `snapA`, `snapR`) and issued the first `fetch`
  (line 46); now awaiting that response;
* `queued` — the first response was a 401 with a truthy snapshot refresh
  token while `isRefreshing` was true; the caller pushed its
  resolve/reject pair onto `failedQueue` (line 57) and is suspended in the
  returned promise;
* `resolvedQ tok` — `processQueue` resolved this caller's promise with
  `tok`; its `.then` continuation (lines 58–68) is scheduled but has not
  run yet;
* `awaitingRetryQ tok` — the continuation ran: it read the current
  `accessToken` from the store (`tok`) and issued the retry `fetch`
  (line 61); awaiting that response;
* `refreshing rtok` — this caller found `isRefreshing` false, set it to
  true and called `refreshTokenApi rtok` (line 76); awaiting that call;
* `awaitingRetryL tok` — the refresh succeeded: the caller ran
  `setAccessToken`, `processQueue` and issued its own retry `fetch` with
  the new token `tok` (line 85); awaiting that response (note the `finally`
  resetting `isRefreshing` has not run yet);
* `done o` — the `authFetch` promise settled with outcome `o`. -/

/-- Settlement of one `authFetch` promise: fulfilled with a `Response`, or
rejected with an error (carried as its message). -/
inductive Outcome where
  | ok (r : Response)
  | err (msg : String)
deriving DecidableEq, Repr

/-- Suspension/completion state of one `authFetch` invocation. -/
inductive Phase where
  | notStarted
  | awaitingFirst (snapA snapR : Option String)
  | queued
  | resolvedQ (tok : Option String)
  | awaitingRetryQ (tok : Option String)
  | refreshing (rtok : String)
  | awaitingRetryL (tok : String)
  | done (o : Outcome)
deriving DecidableEq, Repr

/-- Whole-system state: the session store, the module-level refresh
coordination state of `utils/authFetch.ts` (`isRefreshing`, `failedQueue`
as the list of caller ids in insertion order), every caller's phase, and a
counter of calls made to the refresh endpoint. -/
structure Sys where
  store : AuthState
  isRefreshing : Bool
  failedQueue : List Nat
  tasks : Nat → Phase
  refreshCalls : Nat

/-- Scheduler events: each is the event-loop dispatch of one synchronous
stretch of `authFetch` code.  `start c` runs caller `c`'s prologue and
issues its first fetch; `firstResp`/`retryResp` deliver a fetch settlement
(`Except.error` = network rejection); `refreshResp` delivers the
`refreshTokenApi` fetch outcome; `runCont c` runs the `.then` continuation
of a queued caller whose promise was resolved. -/
inductive Ev where
  | start (c : Nat)
  | firstResp (c : Nat) (res : Except String Response)
  | refreshResp (c : Nat) (h : RefreshHttp)
  | runCont (c : Nat)
  | retryResp (c : Nat) (res : Except String Response)
deriving Repr

/-- Pointwise update of the task map. -/
def upd (f : Nat → Phase) (c : Nat) (p : Phase) : Nat → Phase :=
  fun x => if x = c then p else f x

/-- `processQueue` from `utils/authFetch.ts` (lines 16–26): rejects every
queued promise with the error when one is given, otherwise resolves each
with the token.  (The caller of `processQueue` empties `failedQueue`;
`step` does that at the call sites, as the source does on line 25.) -/
def processQueue (error : Option String) (token : Option String)
    (queue : List Nat) (tasks : Nat → Phase) : Nat → Phase :=
  fun x =>
    if x ∈ queue then
      match error with
      | some m => .done (.err m)
      | none => .resolvedQ token
    else tasks x

/-- The synthetic response built on the refresh-failure path
(lines 105–108): status 401 with body `JSON.stringify({detail: "認証が必要です"})`. -/
def syntheticAuthResponse : Response :=
  { status := 401, body := "\x7b\"detail\":\"認証が必要です\"\x7d" }

/-! One event-loop dispatch (`step`, split into one function per event
kind).  Each branch is the synchronous stretch of `utils/authFetch.ts`
between two suspension points:

* `start`: lines 32–49 — snapshot the store, issue the first fetch;
* `firstResp`, response not (401 ∧ truthy snapshot refresh token):
  line 114 — return the response as-is;
* `firstResp`, 401 ∧ truthy ∧ `isRefreshing`: lines 54–57 — push onto
  `failedQueue` and suspend;
* `firstResp`, 401 ∧ truthy ∧ not `isRefreshing`: lines 72–76 — set
  `isRefreshing := true` and call `refreshTokenApi` (the check and the
  flag set are one synchronous stretch — no suspension between them);
* `refreshResp`, success: lines 79–85 — `setAccessToken`, resolve the
  whole queue (`processQueue`), empty it, issue the leader's retry fetch;
  `isRefreshing` is NOT reset here: the `finally` only runs after the
  retry `await` completes;
* `refreshResp`, failure: lines 92–111 — reject the whole queue with the
  same error, `logout()`, build the synthetic 401 response, and run
  `finally` (`isRefreshing := false`) — all synchronous;
* `runCont`: lines 58–68 — the resolved queued caller reads the current
  store access token and issues its retry fetch;
* `retryResp` of a queued caller: the retry's settlement is returned
  (fulfilled or rejected) to that caller verbatim;
* `retryResp` of the leader, fulfilled: try block ends, `finally` resets
  the flag, the response is returned (line 114) even if it is again a 401;
* `retryResp` of the leader, rejected: the throw is caught by the same
  `catch` (lines 92–111): reject whatever is queued, `logout()`,
  `finally`, return the synthetic 401 response. -/
def stepStart (s : Sys) (c : Nat) : Sys :=
  match s.tasks c with
  | .notStarted =>
    { s with tasks := upd s.tasks c (.awaitingFirst s.store.accessToken s.store.refreshToken) }
  | _ => s

def stepFirst (s : Sys) (c : Nat) (res : Except String Response) : Sys :=
  match s.tasks c with
  | .awaitingFirst _snapA snapR =>
    match res with
    | .error m => { s with tasks := upd s.tasks c (.done (.err m)) }
    | .ok r =>
      if r.status == 401 && truthy snapR then
        if s.isRefreshing then
          { s with failedQueue := s.failedQueue ++ [c],
                   tasks := upd s.tasks c .queued }
        else
          { s with isRefreshing := true,
                   refreshCalls := s.refreshCalls + 1,
                   tasks := upd s.tasks c (.refreshing (snapR.getD "")) }
      else
        { s with tasks := upd s.tasks c (.done (.ok r)) }
  | _ => s

def stepRefresh (s : Sys) (c : Nat) (h : RefreshHttp) : Sys :=
  match s.tasks c with
  | .refreshing _rtok =>
    match refreshTokenApi h with
    | .ok rr =>
      { store := setAccessToken rr.access_token s.store,
        isRefreshing := s.isRefreshing,
        failedQueue := [],
        tasks := upd (processQueue none (some rr.access_token) s.failedQueue s.tasks)
                   c (.awaitingRetryL rr.access_token),
        refreshCalls := s.refreshCalls }
    | .error m =>
      { store := logout s.store,
        isRefreshing := false,
        failedQueue := [],
        tasks := upd (processQueue (some m) none s.failedQueue s.tasks)
                   c (.done (.ok syntheticAuthResponse)),
        refreshCalls := s.refreshCalls }
  | _ => s

def stepCont (s : Sys) (c : Nat) : Sys :=
  match s.tasks c with
  | .resolvedQ _tok =>
    { s with tasks := upd s.tasks c (.awaitingRetryQ s.store.accessToken) }
  | _ => s

def stepRetry (s : Sys) (c : Nat) (res : Except String Response) : Sys :=
  match s.tasks c with
  | .awaitingRetryQ _tok =>
    match res with
    | .ok r => { s with tasks := upd s.tasks c (.done (.ok r)) }
    | .error m => { s with tasks := upd s.tasks c (.done (.err m)) }
  | .awaitingRetryL _tok =>
    match res with
    | .ok r =>
      { s with isRefreshing := false,
               tasks := upd s.tasks c (.done (.ok r)) }
    | .error m =>
      { store := logout s.store,
        isRefreshing := false,
        failedQueue := [],
        tasks := upd (processQueue (some m) none s.failedQueue s.tasks)
                   c (.done (.ok syntheticAuthResponse)),
        refreshCalls := s.refreshCalls }
  | _ => s

def step (s : Sys) (e : Ev) : Sys :=
  match e with
  | .start c => stepStart s c
  | .firstResp c res => stepFirst s c res
  | .refreshResp c h => stepRefresh s c h
  | .runCont c => stepCont s c
  | .retryResp c res => stepRetry s c res

/-- Run a schedule of events. -/
def run (s : Sys) (evs : List Ev) : Sys :=
  evs.foldl step s

/-- Fresh system: given store contents, no refresh in flight, empty queue,
no caller started, no refresh endpoint calls made. -/
def mkSys (store : AuthState) : Sys :=
  { store := store, isRefreshing := false, failedQueue := [],
    tasks := fun _ => .notStarted, refreshCalls := 0 }

/-- A populated session as left by a login followed by a (historical)
refresh-token write: the state in which the refresh flow is reachable. -/
def popStore : AuthState :=
  { isAuthenticated := true, user := some ⟨"u1", "Alice", "alice"⟩,
    accessToken := some "A0", refreshToken := some "R0" }

/-! ## Counting dispatches along a schedule -/

/-- Number of dispatches along `evs` (from `s`) satisfying `p`. -/
def countAlong (s : Sys) (evs : List Ev) (p : Sys → Ev → Bool) : Nat :=
  match evs with
  | [] => 0
  | e :: rest => (if p s e then 1 else 0) + countAlong (step s e) rest p

/-- Dispatch predicate: caller `c` engages the refresh endpoint — it is the
first-response handler finding a 401, a truthy snapshot refresh token and
`isRefreshing` false (lines 52–76 of `utils/authFetch.ts`). -/
def engages (c : Nat) (s : Sys) (e : Ev) : Bool :=
  match e with
  | .firstResp c' (.ok r) =>
    c' == c &&
      (match s.tasks c with
       | .awaitingFirst _snapA snapR => r.status == 401 && truthy snapR && !s.isRefreshing
       | _ => false)
  | _ => false

/-- Dispatch predicate: caller `c` issues its first fetch (line 46). -/
def startIssue (c : Nat) (s : Sys) (e : Ev) : Bool :=
  match e with
  | .start c' =>
    c' == c && (match s.tasks c with | .notStarted => true | _ => false)
  | _ => false

/-- Dispatch predicate: caller `c` issues its retry fetch — as the leader
after a successful refresh (line 85) or as a released queued caller
(line 61). -/
def retryIssue (c : Nat) (s : Sys) (e : Ev) : Bool :=
  match e with
  | .refreshResp c' hh =>
    c' == c &&
      (match s.tasks c, refreshTokenApi hh with
       | .refreshing _, .ok _ => true
       | _, _ => false)
  | .runCont c' =>
    c' == c && (match s.tasks c with | .resolvedQ _ => true | _ => false)
  | _ => false

/-- Dispatch predicate: caller `c` issues its original request to the
network (first issue or the single retry). -/
def issuesFetch (c : Nat) (s : Sys) (e : Ev) : Bool :=
  startIssue c s e || retryIssue c s e

/-! ## Witness fixtures: small concrete systems used to instantiate the
hypothesis-bearing theorems below. -/

/-- Tasks of a mid-refresh snapshot: caller 0 leads a refresh with token
"R0", caller 1 is queued behind it. -/
def wTasks : Nat → Phase :=
  fun x => if x = 0 then .refreshing "R0" else if x = 1 then .queued else .notStarted

/-- Mid-refresh snapshot system: flag set, caller 1 in the wait queue. -/
def wSys : Sys :=
  { store := popStore, isRefreshing := true, failedQueue := [1],
    tasks := wTasks, refreshCalls := 1 }

/-- Post-settlement snapshot: caller 0 is awaiting its leader retry issued
with the fresh token "A2". -/
def wSysL : Sys :=
  { store := setAccessToken "A2" popStore, isRefreshing := true, failedQueue := [],
    tasks := fun x => if x = 0 then .awaitingRetryL "A2" else .notStarted,
    refreshCalls := 1 }

/-! ## Structural invariants of the coordinator state -/

/-- A caller currently driving a refresh cycle: it set `isRefreshing` and
has not yet run its `finally`. -/
def isLeader : Phase → Bool
  | .refreshing _ => true
  | .awaitingRetryL _ => true
  | _ => false

/-- Invariant tying the module-level coordination state of
`utils/authFetch.ts` to the callers' phases: when no refresh is flagged no
caller is mid-cycle, at most one caller is mid-cycle, `failedQueue` holds
exactly the callers suspended in it (in insertion order, without
duplicates). -/
structure Inv (s : Sys) : Prop where
  flag_leader : s.isRefreshing = false → ∀ c, isLeader (s.tasks c) = false
  one_leader : ∀ c c', isLeader (s.tasks c) = true → isLeader (s.tasks c') = true → c = c'
  queue_iff : ∀ c, c ∈ s.failedQueue ↔ s.tasks c = .queued
  nodup : s.failedQueue.Nodup

@[simp] theorem upd_apply (f : Nat → Phase) (c : Nat) (p : Phase) (x : Nat) :
    upd f c p x = if x = c then p else f x := rfl

@[simp] theorem processQueue_apply (error token : Option String) (queue : List Nat)
    (tasks : Nat → Phase) (x : Nat) :
    processQueue error token queue tasks x =
      if x ∈ queue then
        (match error with
         | some m => .done (.err m)
         | none => .resolvedQ token)
      else tasks x := rfl

@[simp] theorem run_nil (s : Sys) : run s [] = s := rfl

@[simp] theorem run_cons (s : Sys) (e : Ev) (evs : List Ev) :
    run s (e :: evs) = run (step s e) evs := rfl

theorem Inv_mkSys (st : AuthState) : Inv (mkSys st) := by
  refine ⟨?_, ?_, ?_, ?_⟩ <;> simp [mkSys, isLeader]

/-- Auxiliary: an update of a single caller to a phase that is neither
queued nor a leader phase, leaving store/flag/queue untouched, preserves
the invariant. -/
theorem Inv_upd_simple {s : Sys} (h : Inv s) {c : Nat} {p : Phase}
    (hL : isLeader p = false) (hQ : p ≠ .queued) (hcq : s.tasks c ≠ .queued) :
    Inv { s with tasks := upd s.tasks c p } := by
  refine ⟨?_, ?_, ?_, h.nodup⟩
  · intro hf x
    by_cases hx : x = c
    · simp [hx, hL]
    · simpa [hx] using h.flag_leader hf x
  · intro x y hx hy
    by_cases hxc : x = c
    · simp [hxc, hL] at hx
    · by_cases hyc : y = c
      · simp [hyc, hL] at hy
      · simp [hxc, hyc] at hx hy
        exact h.one_leader x y hx hy
  · intro x
    by_cases hx : x = c
    · subst hx
      simp [hQ, (h.queue_iff x).not.mpr hcq]
    · simpa [hx] using h.queue_iff x


/-- If some caller is mid-cycle, the flag is set. -/
theorem flag_of_leader {s : Sys} (h : Inv s) {c : Nat}
    (hc : isLeader (s.tasks c) = true) : s.isRefreshing = true := by
  by_contra hf
  have := h.flag_leader (by simpa using hf) c
  simp [hc] at this

/-- `start` preserves the coordinator invariant. -/
theorem Inv_stepStart {s : Sys} (h : Inv s) (c : Nat) : Inv (stepStart s c) := by
  cases htc : s.tasks c <;> simp only [stepStart, htc] <;>
    first
      | exact h
      | exact Inv_upd_simple h (by simp [isLeader]) (by simp) (by simp [htc])

/-- `firstResp` preserves the coordinator invariant. -/
theorem Inv_stepFirst {s : Sys} (h : Inv s) (c : Nat) (res : Except String Response) :
    Inv (stepFirst s c res) := by
  cases res with
  | error m =>
    cases htc : s.tasks c <;> simp only [stepFirst, htc] <;>
      first
        | exact h
        | exact Inv_upd_simple h (by simp [isLeader]) (by simp) (by simp [htc])
  | ok r =>
    cases htc : s.tasks c <;> simp only [stepFirst, htc] <;> try exact h
    case awaitingFirst snapA snapR =>
    by_cases h401 : (r.status == 401 && truthy snapR) = true
    · rw [if_pos h401]
      by_cases hflag : s.isRefreshing = true
      · rw [if_pos hflag]
        refine ⟨?_, ?_, ?_, ?_⟩
        · intro hf; rw [hflag] at hf; cases hf
        · intro x y hx hy
          simp only [upd_apply] at hx hy
          by_cases hxc : x = c
          · simp [hxc, isLeader] at hx
          · by_cases hyc : y = c
            · simp [hyc, isLeader] at hy
            · simp only [if_neg hxc] at hx
              simp only [if_neg hyc] at hy
              exact h.one_leader x y hx hy
        · intro x
          simp only [upd_apply, List.mem_append, List.mem_singleton]
          by_cases hx : x = c
          · simp [hx]
          · simp only [if_neg hx, hx, or_false]
            exact h.queue_iff x
        · have hcq : c ∉ s.failedQueue := (h.queue_iff c).not.mpr (by simp [htc])
          simp [List.nodup_append, h.nodup, hcq]
      · rw [if_neg hflag]
        have hleadnone := h.flag_leader (by simpa using hflag)
        refine ⟨?_, ?_, ?_, h.nodup⟩
        · intro hf; cases hf
        · intro x y hx hy
          simp only [upd_apply] at hx hy
          by_cases hxc : x = c
          · by_cases hyc : y = c
            · rw [hxc, hyc]
            · simp only [if_neg hyc] at hy
              rw [hleadnone y] at hy
              cases hy
          · simp only [if_neg hxc] at hx
            rw [hleadnone x] at hx
            cases hx
        · intro x
          simp only [upd_apply]
          by_cases hx : x = c
          · subst hx
            simp [(h.queue_iff x).not.mpr (by simp [htc])]
          · simp only [if_neg hx]
            exact h.queue_iff x
    · rw [if_neg h401]
      exact Inv_upd_simple h (by simp [isLeader]) (by simp) (by simp [htc])

/-- `refreshResp` preserves the coordinator invariant. -/
theorem Inv_stepRefresh {s : Sys} (h : Inv s) (c : Nat) (hh : RefreshHttp) :
    Inv (stepRefresh s c hh) := by
  cases htc : s.tasks c <;> simp only [stepRefresh, htc] <;> try exact h
  case refreshing rtok =>
  have hlead : isLeader (s.tasks c) = true := by simp [htc, isLeader]
  have hflag : s.isRefreshing = true := flag_of_leader h hlead
  cases hapi : refreshTokenApi hh with
  | ok rr =>
    simp only [hapi]
    refine ⟨?_, ?_, ?_, by simp⟩
    · intro hf; rw [hflag] at hf; cases hf
    · intro x y hx hy
      simp only [upd_apply, processQueue_apply] at hx hy
      by_cases hxc : x = c
      · by_cases hyc : y = c
        · rw [hxc, hyc]
        · simp only [if_neg hyc] at hy
          by_cases hyq : y ∈ s.failedQueue
          · simp [hyq, isLeader] at hy
          · simp only [if_neg hyq] at hy
            exact absurd (h.one_leader y c hy hlead) hyc
      · simp only [if_neg hxc] at hx
        by_cases hxq : x ∈ s.failedQueue
        · simp [hxq, isLeader] at hx
        · simp only [if_neg hxq] at hx
          exact absurd (h.one_leader x c hx hlead) hxc
    · intro x
      simp only [upd_apply, processQueue_apply, List.not_mem_nil, false_iff]
      by_cases hxc : x = c
      · simp [hxc]
      · simp only [if_neg hxc]
        by_cases hxq : x ∈ s.failedQueue
        · simp [hxq]
        · simp only [if_neg hxq]
          exact (h.queue_iff x).not.mp hxq
  | error m =>
    simp only [hapi]
    have hnolead : ∀ x, isLeader
        (upd (processQueue (some m) none s.failedQueue s.tasks) c
          (.done (.ok syntheticAuthResponse)) x) = false := by
      intro x
      simp only [upd_apply, processQueue_apply]
      by_cases hxc : x = c
      · simp [hxc, isLeader]
      · simp only [if_neg hxc]
        by_cases hxq : x ∈ s.failedQueue
        · simp [hxq, isLeader]
        · simp only [if_neg hxq]
          by_cases hlx : isLeader (s.tasks x) = true
          · exact absurd (h.one_leader x c hlx hlead) hxc
          · simpa using hlx
    refine ⟨fun _ => hnolead, ?_, ?_, by simp⟩
    · intro x y hx _
      rw [hnolead x] at hx
      cases hx
    · intro x
      simp only [upd_apply, processQueue_apply, List.not_mem_nil, false_iff]
      by_cases hxc : x = c
      · simp [hxc]
      · simp only [if_neg hxc]
        by_cases hxq : x ∈ s.failedQueue
        · simp [hxq]
        · simp only [if_neg hxq]
          exact (h.queue_iff x).not.mp hxq

/-- `runCont` preserves the coordinator invariant. -/
theorem Inv_stepCont {s : Sys} (h : Inv s) (c : Nat) : Inv (stepCont s c) := by
  cases htc : s.tasks c <;> simp only [stepCont, htc] <;>
    first
      | exact h
      | exact Inv_upd_simple h (by simp [isLeader]) (by simp) (by simp [htc])

/-- `retryResp` preserves the coordinator invariant. -/
theorem Inv_stepRetry {s : Sys} (h : Inv s) (c : Nat) (res : Except String Response) :
    Inv (stepRetry s c res) := by
  cases htc : s.tasks c <;> simp only [stepRetry, htc] <;> try exact h
  case awaitingRetryQ tok =>
    cases res with
    | ok r => exact Inv_upd_simple h (by simp [isLeader]) (by simp) (by simp [htc])
    | error m => exact Inv_upd_simple h (by simp [isLeader]) (by simp) (by simp [htc])
  case awaitingRetryL tok =>
  have hlead : isLeader (s.tasks c) = true := by simp [htc, isLeader]
  cases res with
  | ok r =>
    have hnolead : ∀ x, isLeader (upd s.tasks c (.done (.ok r)) x) = false := by
      intro x
      simp only [upd_apply]
      by_cases hxc : x = c
      · simp [hxc, isLeader]
      · simp only [if_neg hxc]
        by_cases hlx : isLeader (s.tasks x) = true
        · exact absurd (h.one_leader x c hlx hlead) hxc
        · simpa using hlx
    refine ⟨fun _ => hnolead, ?_, ?_, h.nodup⟩
    · intro x y hx _
      rw [hnolead x] at hx
      cases hx
    · intro x
      simp only [upd_apply]
      by_cases hxc : x = c
      · subst hxc
        simp [(h.queue_iff x).not.mpr (by simp [htc])]
      · simp only [if_neg hxc]
        exact h.queue_iff x
  | error m =>
    have hnolead : ∀ x, isLeader
        (upd (processQueue (some m) none s.failedQueue s.tasks) c
          (.done (.ok syntheticAuthResponse)) x) = false := by
      intro x
      simp only [upd_apply, processQueue_apply]
      by_cases hxc : x = c
      · simp [hxc, isLeader]
      · simp only [if_neg hxc]
        by_cases hxq : x ∈ s.failedQueue
        · simp [hxq, isLeader]
        · simp only [if_neg hxq]
          by_cases hlx : isLeader (s.tasks x) = true
          · exact absurd (h.one_leader x c hlx hlead) hxc
          · simpa using hlx
    refine ⟨fun _ => hnolead, ?_, ?_, by simp⟩
    · intro x y hx _
      rw [hnolead x] at hx
      cases hx
    · intro x
      simp only [upd_apply, processQueue_apply, List.not_mem_nil, false_iff]
      by_cases hxc : x = c
      · simp [hxc]
      · simp only [if_neg hxc]
        by_cases hxq : x ∈ s.failedQueue
        · simp [hxq]
        · simp only [if_neg hxq]
          exact (h.queue_iff x).not.mp hxq

/-- Every event-loop dispatch preserves the coordinator invariant. -/
theorem Inv_step {s : Sys} (h : Inv s) (e : Ev) : Inv (step s e) := by
  cases e with
  | start c => exact Inv_stepStart h c
  | firstResp c res => exact Inv_stepFirst h c res
  | refreshResp c hh => exact Inv_stepRefresh h c hh
  | runCont c => exact Inv_stepCont h c
  | retryResp c res => exact Inv_stepRetry h c res

/-- The invariant holds along every schedule. -/
theorem Inv_run {s : Sys} (h : Inv s) (evs : List Ev) : Inv (run s evs) := by
  induction evs generalizing s with
  | nil => exact h
  | cons e evs ih => exact ih (Inv_step h e)

/-! ## Phase-transition structure

`tasks_step_shape` records, for any dispatch, that a caller's phase either
stays put or moves along one edge of the control-flow graph of
`authFetch`; the at-most-once and absorption arguments below are read off
from it. -/

theorem tasks_step_shape {s : Sys} (hInv : Inv s) (e : Ev) (c : Nat) :
    (step s e).tasks c = s.tasks c ∨
    (∃ a r, s.tasks c = .notStarted ∧ (step s e).tasks c = .awaitingFirst a r) ∨
    (∃ a r, s.tasks c = .awaitingFirst a r ∧
       ((step s e).tasks c = .queued ∨ (∃ t, (step s e).tasks c = .refreshing t) ∨
        (∃ o, (step s e).tasks c = .done o))) ∨
    (s.tasks c = .queued ∧ ((∃ t, (step s e).tasks c = .resolvedQ t) ∨
        (∃ m, (step s e).tasks c = .done (.err m)))) ∨
    (∃ t, s.tasks c = .resolvedQ t ∧ (∃ u, (step s e).tasks c = .awaitingRetryQ u)) ∨
    (∃ t, s.tasks c = .refreshing t ∧ ((∃ u, (step s e).tasks c = .awaitingRetryL u) ∨
        (∃ o, (step s e).tasks c = .done o))) ∨
    (∃ t, s.tasks c = .awaitingRetryQ t ∧ (∃ o, (step s e).tasks c = .done o)) ∨
    (∃ t, s.tasks c = .awaitingRetryL t ∧ (∃ o, (step s e).tasks c = .done o)) := by
  have hqueue : ∀ x, x ∈ s.failedQueue → s.tasks x = .queued := fun x hx => (hInv.queue_iff x).mp hx
  cases e with
  | start c' =>
    cases htc' : s.tasks c' <;> simp only [step, stepStart, htc'] <;> try exact Or.inl trivial
    case notStarted =>
      by_cases hc : c = c'
      · subst hc
        exact Or.inr (Or.inl ⟨s.store.accessToken, s.store.refreshToken, htc', by simp⟩)
      · exact Or.inl (by simp [hc])
  | firstResp c' res =>
    cases res with
    | error m =>
      cases htc' : s.tasks c' <;> simp only [step, stepFirst, htc'] <;> try exact Or.inl trivial
      case awaitingFirst a r =>
        by_cases hc : c = c'
        · subst hc
          exact Or.inr (Or.inr (Or.inl ⟨a, r, htc', Or.inr (Or.inr ⟨.err m, by simp⟩)⟩))
        · exact Or.inl (by simp [hc])
    | ok r =>
      cases htc' : s.tasks c' <;> simp only [step, stepFirst, htc'] <;> try exact Or.inl trivial
      case awaitingFirst a rr =>
        by_cases h401 : (r.status == 401 && truthy rr) = true
        · rw [if_pos h401]
          by_cases hflag : s.isRefreshing = true
          · rw [if_pos hflag]
            by_cases hc : c = c'
            · subst hc
              exact Or.inr (Or.inr (Or.inl ⟨a, rr, htc', Or.inl (by simp)⟩))
            · exact Or.inl (by simp [hc])
          · rw [if_neg hflag]
            by_cases hc : c = c'
            · subst hc
              exact Or.inr (Or.inr (Or.inl ⟨a, rr, htc', Or.inr (Or.inl ⟨rr.getD "", by simp⟩)⟩))
            · exact Or.inl (by simp [hc])
        · rw [if_neg h401]
          by_cases hc : c = c'
          · subst hc
            exact Or.inr (Or.inr (Or.inl ⟨a, rr, htc', Or.inr (Or.inr ⟨.ok r, by simp⟩)⟩))
          · exact Or.inl (by simp [hc])
  | refreshResp c' hh =>
    cases htc' : s.tasks c' <;> simp only [step, stepRefresh, htc'] <;> try exact Or.inl trivial
    case refreshing rtok =>
      cases hapi : refreshTokenApi hh with
      | ok rrr =>
        simp only [hapi]
        by_cases hc : c = c'
        · subst hc
          exact Or.inr (Or.inr (Or.inr (Or.inr (Or.inr (Or.inl
            ⟨rtok, htc', Or.inl ⟨rrr.access_token, by simp⟩⟩)))))
        · by_cases hq : c ∈ s.failedQueue
          · exact Or.inr (Or.inr (Or.inr (Or.inl
              ⟨hqueue c hq, Or.inl ⟨some rrr.access_token, by simp [hc, hq]⟩⟩)))
          · exact Or.inl (by simp [hc, hq])
      | error m =>
        simp only [hapi]
        by_cases hc : c = c'
        · subst hc
          exact Or.inr (Or.inr (Or.inr (Or.inr (Or.inr (Or.inl
            ⟨rtok, htc', Or.inr ⟨.ok syntheticAuthResponse, by simp⟩⟩)))))
        · by_cases hq : c ∈ s.failedQueue
          · exact Or.inr (Or.inr (Or.inr (Or.inl
              ⟨hqueue c hq, Or.inr ⟨m, by simp [hc, hq]⟩⟩)))
          · exact Or.inl (by simp [hc, hq])
  | runCont c' =>
    cases htc' : s.tasks c' <;> simp only [step, stepCont, htc'] <;> try exact Or.inl trivial
    case resolvedQ tok =>
      by_cases hc : c = c'
      · subst hc
        exact Or.inr (Or.inr (Or.inr (Or.inr (Or.inl
          ⟨tok, htc', ⟨s.store.accessToken, by simp⟩⟩))))
      · exact Or.inl (by simp [hc])
  | retryResp c' res =>
    cases res with
    | ok r =>
      cases htc' : s.tasks c' <;> simp only [step, stepRetry, htc'] <;> try exact Or.inl trivial
      case awaitingRetryQ tok =>
        by_cases hc : c = c'
        · subst hc
          exact Or.inr (Or.inr (Or.inr (Or.inr (Or.inr (Or.inr (Or.inl
            ⟨tok, htc', ⟨.ok r, by simp⟩⟩))))))
        · exact Or.inl (by simp [hc])
      case awaitingRetryL tok =>
        by_cases hc : c = c'
        · subst hc
          exact Or.inr (Or.inr (Or.inr (Or.inr (Or.inr (Or.inr (Or.inr
            ⟨tok, htc', ⟨.ok r, by simp⟩⟩))))))
        · exact Or.inl (by simp [hc])
    | error m =>
      cases htc' : s.tasks c' <;> simp only [step, stepRetry, htc'] <;> try exact Or.inl trivial
      case awaitingRetryQ tok =>
        by_cases hc : c = c'
        · subst hc
          exact Or.inr (Or.inr (Or.inr (Or.inr (Or.inr (Or.inr (Or.inl
            ⟨tok, htc', ⟨.err m, by simp⟩⟩))))))
        · exact Or.inl (by simp [hc])
      case awaitingRetryL tok =>
        by_cases hc : c = c'
        · subst hc
          exact Or.inr (Or.inr (Or.inr (Or.inr (Or.inr (Or.inr (Or.inr
            ⟨tok, htc', ⟨.ok syntheticAuthResponse, by simp⟩⟩))))))
        · by_cases hq : c ∈ s.failedQueue
          · exact Or.inr (Or.inr (Or.inr (Or.inl
              ⟨hqueue c hq, Or.inr ⟨m, by simp [hc, hq]⟩⟩)))
          · exact Or.inl (by simp [hc, hq])

/-- A caller that has issued its first fetch never returns to
`notStarted`. -/
theorem started_absorb {s : Sys} (hInv : Inv s) (e : Ev) (c : Nat)
    (h : s.tasks c ≠ .notStarted) : (step s e).tasks c ≠ .notStarted := by
  rcases tasks_step_shape hInv e c with heq | ⟨a, r, _, hnew⟩ | ⟨a, r, _, hnew⟩ |
    ⟨_, hnew⟩ | ⟨t, _, hnew⟩ | ⟨t, _, hnew⟩ | ⟨t, _, hnew⟩ | ⟨t, _, hnew⟩
  · rw [heq]; exact h
  · simp [hnew]
  · rcases hnew with hnew | ⟨t, hnew⟩ | ⟨o, hnew⟩ <;> simp [hnew]
  · rcases hnew with ⟨t, hnew⟩ | ⟨m, hnew⟩ <;> simp [hnew]
  · rcases hnew with ⟨u, hnew⟩; simp [hnew]
  · rcases hnew with ⟨u, hnew⟩ | ⟨o, hnew⟩ <;> simp [hnew]
  · rcases hnew with ⟨o, hnew⟩; simp [hnew]
  · rcases hnew with ⟨o, hnew⟩; simp [hnew]

/-- A caller that has already reacted to its first response (it is past
`notStarted` and `awaitingFirst`) never returns to either. -/
theorem notEarly_absorb {s : Sys} (hInv : Inv s) (e : Ev) (c : Nat)
    (h1 : s.tasks c ≠ .notStarted) (h2 : ∀ a r, s.tasks c ≠ .awaitingFirst a r) :
    (step s e).tasks c ≠ .notStarted ∧ ∀ a r, (step s e).tasks c ≠ .awaitingFirst a r := by
  rcases tasks_step_shape hInv e c with heq | ⟨a, r, hold, hnew⟩ | ⟨a, r, hold, hnew⟩ |
    ⟨hold, hnew⟩ | ⟨t, hold, hnew⟩ | ⟨t, hold, hnew⟩ | ⟨t, hold, hnew⟩ | ⟨t, hold, hnew⟩
  · rw [heq]; exact ⟨h1, h2⟩
  · exact absurd hold h1
  · exact absurd hold (h2 a r)
  · rcases hnew with ⟨t, hnew⟩ | ⟨m, hnew⟩ <;> simp [hnew]
  · rcases hnew with ⟨u, hnew⟩; simp [hnew]
  · rcases hnew with ⟨u, hnew⟩ | ⟨o, hnew⟩ <;> simp [hnew]
  · rcases hnew with ⟨o, hnew⟩; simp [hnew]
  · rcases hnew with ⟨o, hnew⟩; simp [hnew]

/-- A caller that has already issued a retry fetch (or finished) never
returns to a retry-issuing phase (`refreshing` or `resolvedQ`). -/
theorem retried_absorb {s : Sys} (hInv : Inv s) (e : Ev) (c : Nat)
    (h : (∃ t, s.tasks c = .awaitingRetryL t) ∨ (∃ t, s.tasks c = .awaitingRetryQ t) ∨
      (∃ o, s.tasks c = .done o)) :
    (∃ t, (step s e).tasks c = .awaitingRetryL t) ∨
    (∃ t, (step s e).tasks c = .awaitingRetryQ t) ∨
    (∃ o, (step s e).tasks c = .done o) := by
  rcases tasks_step_shape hInv e c with heq | ⟨a, r, hold, hnew⟩ | ⟨a, r, hold, hnew⟩ |
    ⟨hold, hnew⟩ | ⟨t, hold, hnew⟩ | ⟨t, hold, hnew⟩ | ⟨t, hold, hnew⟩ | ⟨t, hold, hnew⟩
  · rw [heq]; exact h
  · rcases h with ⟨u, hc⟩ | ⟨u, hc⟩ | ⟨o, hc⟩ <;> rw [hold] at hc <;> cases hc
  · rcases h with ⟨u, hc⟩ | ⟨u, hc⟩ | ⟨o, hc⟩ <;> rw [hold] at hc <;> cases hc
  · rcases h with ⟨u, hc⟩ | ⟨u, hc⟩ | ⟨o, hc⟩ <;> rw [hold] at hc <;> cases hc
  · rcases h with ⟨u, hc⟩ | ⟨u, hc⟩ | ⟨o, hc⟩ <;> rw [hold] at hc <;> cases hc
  · rcases h with ⟨u, hc⟩ | ⟨u, hc⟩ | ⟨o, hc⟩ <;> rw [hold] at hc <;> cases hc
  · rcases hnew with ⟨o, hnew⟩
    exact Or.inr (Or.inr ⟨o, hnew⟩)
  · rcases hnew with ⟨o, hnew⟩
    exact Or.inr (Or.inr ⟨o, hnew⟩)

/-- One dispatch either keeps a refreshing leader in `refreshing` or moves
it past its settlement (to its retry await or a final outcome). -/
theorem refreshing_or_left {s : Sys} (hInv : Inv s) (e : Ev) {c : Nat} {rtok : String}
    (h : s.tasks c = .refreshing rtok) :
    (step s e).tasks c = .refreshing rtok ∨
    (∃ u, (step s e).tasks c = .awaitingRetryL u) ∨ (∃ o, (step s e).tasks c = .done o) := by
  rcases tasks_step_shape hInv e c with heq | ⟨a, r, hold, hnew⟩ | ⟨a, r, hold, hnew⟩ |
    ⟨hold, hnew⟩ | ⟨t, hold, hnew⟩ | ⟨t, hold, hnew⟩ | ⟨t, hold, hnew⟩ | ⟨t, hold, hnew⟩
  · rw [heq, h]; exact Or.inl rfl
  · rw [h] at hold; cases hold
  · rw [h] at hold; cases hold
  · rw [h] at hold; cases hold
  · rw [h] at hold; cases hold
  · exact Or.inr hnew
  · rw [h] at hold; cases hold
  · rw [h] at hold; cases hold

/-- Once a leader is past its refresh settlement, it stays past it. -/
theorem leftRefreshing_absorb {s : Sys} (hInv : Inv s) (e : Ev) (c : Nat)
    (h : (∃ u, s.tasks c = .awaitingRetryL u) ∨ (∃ o, s.tasks c = .done o)) :
    (∃ u, (step s e).tasks c = .awaitingRetryL u) ∨ (∃ o, (step s e).tasks c = .done o) := by
  rcases tasks_step_shape hInv e c with heq | ⟨a, r, hold, hnew⟩ | ⟨a, r, hold, hnew⟩ |
    ⟨hold, hnew⟩ | ⟨t, hold, hnew⟩ | ⟨t, hold, hnew⟩ | ⟨t, hold, hnew⟩ | ⟨t, hold, hnew⟩
  · rw [heq]; exact h
  · rcases h with ⟨u, hc⟩ | ⟨o, hc⟩ <;> rw [hold] at hc <;> cases hc
  · rcases h with ⟨u, hc⟩ | ⟨o, hc⟩ <;> rw [hold] at hc <;> cases hc
  · rcases h with ⟨u, hc⟩ | ⟨o, hc⟩ <;> rw [hold] at hc <;> cases hc
  · rcases h with ⟨u, hc⟩ | ⟨o, hc⟩ <;> rw [hold] at hc <;> cases hc
  · rcases h with ⟨u, hc⟩ | ⟨o, hc⟩ <;> rw [hold] at hc <;> cases hc
  · rcases hnew with ⟨o, hnew⟩
    exact Or.inr ⟨o, hnew⟩
  · rcases hnew with ⟨o, hnew⟩
    exact Or.inr ⟨o, hnew⟩

/-- `leftRefreshing_absorb` along a whole schedule. -/
theorem leftRefreshing_run {c : Nat} (evs : List Ev) :
    ∀ s : Sys, Inv s →
    ((∃ u, s.tasks c = .awaitingRetryL u) ∨ (∃ o, s.tasks c = .done o)) →
    (∃ u, (run s evs).tasks c = .awaitingRetryL u) ∨ (∃ o, (run s evs).tasks c = .done o) := by
  induction evs with
  | nil => intro s _ h; exact h
  | cons e evs ih =>
    intro s hInv h
    exact ih (step s e) (Inv_step hInv e) (leftRefreshing_absorb hInv e c h)

/-- While the leader stays in `refreshing` (its refresh call has not
settled), no dispatch releases a queued caller. -/
theorem step_keeps_queued {s : Sys} (hInv : Inv s) (e : Ev) {c q : Nat} {rtok : String}
    (hc : s.tasks c = .refreshing rtok)
    (hc1 : (step s e).tasks c = .refreshing rtok)
    (hq : s.tasks q = .queued) : (step s e).tasks q = .queued := by
  have hlead : isLeader (s.tasks c) = true := by simp [hc, isLeader]
  cases e with
  | start c' =>
    cases htc' : s.tasks c' <;> simp only [step, stepStart, htc'] <;> try exact hq
    case notStarted =>
      have hne : q ≠ c' := fun hqc => by rw [hqc, htc'] at hq; cases hq
      simp [hne, hq]
  | firstResp c' res =>
    cases res with
    | error m =>
      cases htc' : s.tasks c' <;> simp only [step, stepFirst, htc'] <;> try exact hq
      case awaitingFirst a r =>
        have hne : q ≠ c' := fun hqc => by rw [hqc, htc'] at hq; cases hq
        simp [hne, hq]
    | ok r =>
      cases htc' : s.tasks c' <;> simp only [step, stepFirst, htc'] <;> try exact hq
      case awaitingFirst a rr =>
        have hne : q ≠ c' := fun hqc => by rw [hqc, htc'] at hq; cases hq
        by_cases h401 : (r.status == 401 && truthy rr) = true
        · rw [if_pos h401]
          by_cases hflag : s.isRefreshing = true
          · rw [if_pos hflag]; simp [hne, hq]
          · rw [if_neg hflag]; simp [hne, hq]
        · rw [if_neg h401]; simp [hne, hq]
  | refreshResp c' hh =>
    cases htc' : s.tasks c' <;> simp only [step, stepRefresh, htc'] <;> try exact hq
    case refreshing rtok' =>
      exfalso
      have hcc' : c = c' := hInv.one_leader c c' hlead (by simp [htc', isLeader])
      subst hcc'
      rw [htc'] at hc
      cases hc
      simp only [step, stepRefresh, htc'] at hc1
      cases hapi : refreshTokenApi hh with
      | ok rrr => simp [hapi] at hc1
      | error m => simp [hapi] at hc1
  | runCont c' =>
    cases htc' : s.tasks c' <;> simp only [step, stepCont, htc'] <;> try exact hq
    case resolvedQ tok =>
      have hne : q ≠ c' := fun hqc => by rw [hqc, htc'] at hq; cases hq
      simp [hne, hq]
  | retryResp c' res =>
    cases res with
    | ok r =>
      cases htc' : s.tasks c' <;> simp only [step, stepRetry, htc'] <;> try exact hq
      case awaitingRetryQ tok =>
        have hne : q ≠ c' := fun hqc => by rw [hqc, htc'] at hq; cases hq
        simp [hne, hq]
      case awaitingRetryL tok =>
        have hne : q ≠ c' := fun hqc => by rw [hqc, htc'] at hq; cases hq
        simp [hne, hq]
    | error m =>
      cases htc' : s.tasks c' <;> simp only [step, stepRetry, htc'] <;> try exact hq
      case awaitingRetryQ tok =>
        have hne : q ≠ c' := fun hqc => by rw [hqc, htc'] at hq; cases hq
        simp [hne, hq]
      case awaitingRetryL tok =>
        exfalso
        have hcc' : c = c' := hInv.one_leader c c' hlead (by simp [htc', isLeader])
        subst hcc'
        rw [htc'] at hc
        cases hc

/-- A caller queued behind an unsettled refresh stays queued as long as the
leader's refresh call has not settled. -/
theorem queued_persists {c q : Nat} {rtok : String} (evs : List Ev) :
    ∀ s : Sys, Inv s → s.tasks c = .refreshing rtok →
    (run s evs).tasks c = .refreshing rtok → s.tasks q = .queued →
    (run s evs).tasks q = .queued := by
  induction evs with
  | nil => intro s _ _ _ hq; exact hq
  | cons e evs ih =>
    intro s hInv hc hfin hq
    rw [run_cons] at hfin
    have hc1 : (step s e).tasks c = .refreshing rtok := by
      rcases refreshing_or_left hInv e hc with h | h
      · exact h
      · exfalso
        rcases leftRefreshing_run evs (step s e) (Inv_step hInv e) h with ⟨u, habs⟩ | ⟨o, habs⟩ <;>
          rw [habs] at hfin <;> cases hfin
    exact ih (step s e) (Inv_step hInv e) hc1 hfin (step_keeps_queued hInv e hc hc1 hq)

theorem countAlong_zero (p : Sys → Ev → Bool) (A : Sys → Prop)
    (hA : ∀ s e, A s → A (step s e)) (hno : ∀ s e, A s → p s e = false) :
    ∀ (evs : List Ev) (s : Sys), A s → countAlong s evs p = 0 := by
  intro evs
  induction evs with
  | nil => intro s _; rfl
  | cons e rest ih =>
    intro s hs
    have h0 := ih (step s e) (hA s e hs)
    simp [countAlong, hno s e hs, h0]

theorem countAlong_le_one (p : Sys → Ev → Bool) (G B : Sys → Prop)
    (hG : ∀ s e, G s → G (step s e))
    (hB : ∀ s e, G s → B s → B (step s e))
    (hno : ∀ s e, B s → p s e = false)
    (hafter : ∀ s e, G s → p s e = true → B (step s e)) :
    ∀ (evs : List Ev) (s : Sys), G s → countAlong s evs p ≤ 1 := by
  intro evs
  induction evs with
  | nil => intro s _; exact Nat.zero_le 1
  | cons e rest ih =>
    intro s hs
    by_cases hp : p s e = true
    · have hzero : countAlong (step s e) rest p = 0 :=
        countAlong_zero p (fun t => G t ∧ B t)
          (fun t e' ht => ⟨hG t e' ht.1, hB t e' ht.1 ht.2⟩)
          (fun t e' ht => hno t e' ht.2)
          rest (step s e) ⟨hG s e hs, hafter s e hs hp⟩
      simp [countAlong, hp, hzero]
    · have h1 := ih (step s e) (hG s e hs)
      simp only [countAlong, hp, if_false, Nat.zero_add]
      simpa using h1

theorem countAlong_or_le (p q : Sys → Ev → Bool) :
    ∀ (evs : List Ev) (s : Sys),
    countAlong s evs (fun t e => p t e || q t e) ≤ countAlong s evs p + countAlong s evs q := by
  intro evs
  induction evs with
  | nil => intro s; exact Nat.le_refl 0
  | cons e rest ih =>
    intro s
    simp only [countAlong]
    have h1 : (if (p s e || q s e) = true then 1 else 0) ≤
        (if p s e then 1 else 0) + (if q s e then 1 else 0) := by
      by_cases hp : p s e = true <;> by_cases hq : q s e = true <;> simp [hp, hq]
    calc (if (p s e || q s e) = true then 1 else 0) +
          countAlong (step s e) rest (fun t e => p t e || q t e)
        ≤ ((if p s e then 1 else 0) + (if q s e then 1 else 0)) +
          (countAlong (step s e) rest p + countAlong (step s e) rest q) :=
          Nat.add_le_add h1 (ih (step s e))
      _ = ((if p s e then 1 else 0) + countAlong (step s e) rest p) +
          ((if q s e then 1 else 0) + countAlong (step s e) rest q) := by ring

/-- Along any schedule from an invariant state, a given caller engages the
refresh endpoint at most once. -/
theorem engages_le_one (c : Nat) (evs : List Ev) (s : Sys) (hInv : Inv s) :
    countAlong s evs (engages c) ≤ 1 := by
  refine countAlong_le_one (engages c) Inv
    (fun t => t.tasks c ≠ .notStarted ∧ ∀ a r, t.tasks c ≠ .awaitingFirst a r)
    (fun t e ht => Inv_step ht e)
    (fun t e ht hb => notEarly_absorb ht e c hb.1 hb.2)
    ?_ ?_ evs s hInv
  · intro t e hb
    rcases hb with ⟨h1, h2⟩
    cases e with
    | firstResp c' res =>
      cases res with
      | error m => rfl
      | ok r =>
        simp only [engages]
        cases hts : t.tasks c with
        | awaitingFirst a r' => exact absurd hts (h2 a r')
        | _ => simp
    | _ => rfl
  · intro t e ht hp
    cases e with
    | firstResp c' res =>
      cases res with
      | error m => simp [engages] at hp
      | ok r =>
        simp only [engages, Bool.and_eq_true, beq_iff_eq] at hp
        obtain ⟨hc', hrest⟩ := hp
        rw [hc']
        cases hts : t.tasks c with
        | awaitingFirst a r' =>
          rw [hts] at hrest
          obtain ⟨⟨h401, htr⟩, hflag⟩ := by
            simpa only [Bool.and_eq_true, Bool.not_eq_true'] using hrest
          have hcond : (r.status == 401 && truthy r') = true := by simp [h401, htr]
          constructor <;>
            simp [step, stepFirst, hts, hcond, hflag]
        | _ => rw [hts] at hrest; simp at hrest
    | _ => simp [engages] at hp

/-- Along any schedule from an invariant state, a given caller issues its
first fetch at most once. -/
theorem startIssue_le_one (c : Nat) (evs : List Ev) (s : Sys) (hInv : Inv s) :
    countAlong s evs (startIssue c) ≤ 1 := by
  refine countAlong_le_one (startIssue c) Inv
    (fun t => t.tasks c ≠ .notStarted)
    (fun t e ht => Inv_step ht e)
    (fun t e ht hb => started_absorb ht e c hb)
    ?_ ?_ evs s hInv
  · intro t e hb
    cases e with
    | start c' =>
      simp only [startIssue]
      cases hts : t.tasks c with
      | notStarted => exact absurd hts hb
      | _ => simp
    | _ => rfl
  · intro t e ht hp
    cases e with
    | start c' =>
      simp only [startIssue, Bool.and_eq_true, beq_iff_eq] at hp
      obtain ⟨hc', hrest⟩ := hp
      rw [hc']
      cases hts : t.tasks c with
      | notStarted => simp [step, stepStart, hts]
      | _ => rw [hts] at hrest; simp at hrest
    | _ => simp [startIssue] at hp

/-- Along any schedule from an invariant state, a given caller issues a
retry fetch at most once. -/
theorem retryIssue_le_one (c : Nat) (evs : List Ev) (s : Sys) (hInv : Inv s) :
    countAlong s evs (retryIssue c) ≤ 1 := by
  refine countAlong_le_one (retryIssue c) Inv
    (fun t => (∃ u, t.tasks c = .awaitingRetryL u) ∨ (∃ u, t.tasks c = .awaitingRetryQ u) ∨
      (∃ o, t.tasks c = .done o))
    (fun t e ht => Inv_step ht e)
    (fun t e ht hb => retried_absorb ht e c hb)
    ?_ ?_ evs s hInv
  · intro t e hb
    cases e with
    | refreshResp c' hh =>
      simp only [retryIssue]
      cases hts : t.tasks c with
      | refreshing rt =>
        rcases hb with ⟨u, hc⟩ | ⟨u, hc⟩ | ⟨o, hc⟩ <;> rw [hts] at hc <;> cases hc
      | _ => simp
    | runCont c' =>
      simp only [retryIssue]
      cases hts : t.tasks c with
      | resolvedQ tok =>
        rcases hb with ⟨u, hc⟩ | ⟨u, hc⟩ | ⟨o, hc⟩ <;> rw [hts] at hc <;> cases hc
      | _ => simp
    | _ => rfl
  · intro t e ht hp
    cases e with
    | refreshResp c' hh =>
      simp only [retryIssue, Bool.and_eq_true, beq_iff_eq] at hp
      obtain ⟨hc', hrest⟩ := hp
      rw [hc']
      cases hts : t.tasks c with
      | refreshing rt =>
        cases hapi : refreshTokenApi hh with
        | ok rr => exact Or.inl ⟨rr.access_token, by simp [step, stepRefresh, hts, hapi]⟩
        | error m => rw [hts, hapi] at hrest; simp at hrest
      | _ => rw [hts] at hrest; revert hrest; cases refreshTokenApi hh <;> simp
    | runCont c' =>
      simp only [retryIssue, Bool.and_eq_true, beq_iff_eq] at hp
      obtain ⟨hc', hrest⟩ := hp
      rw [hc']
      cases hts : t.tasks c with
      | resolvedQ tok =>
        exact Or.inr (Or.inl ⟨t.store.accessToken, by simp [step, stepCont, hts]⟩)
      | _ => rw [hts] at hrest; simp at hrest
    | _ => simp [retryIssue] at hp

/-- While a refresh is flagged in progress, no dispatch calls the refresh
endpoint: a 401 arriving then is queued, not refreshed. -/
theorem refreshCalls_flag {s : Sys} (e : Ev) (hflag : s.isRefreshing = true) :
    (step s e).refreshCalls = s.refreshCalls := by
  cases e with
  | start c' =>
    cases htc' : s.tasks c' <;> simp [step, stepStart, htc']
  | firstResp c' res =>
    cases res with
    | error m => cases htc' : s.tasks c' <;> simp [step, stepFirst, htc']
    | ok r =>
      cases htc' : s.tasks c' <;> simp only [step, stepFirst, htc'] <;> try rfl
      case awaitingFirst a rr =>
        by_cases h401 : (r.status == 401 && truthy rr) = true
        · rw [if_pos h401, if_pos hflag]
        · rw [if_neg h401]
  | refreshResp c' hh =>
    cases htc' : s.tasks c' <;> simp only [step, stepRefresh, htc'] <;> try rfl
    case refreshing rt =>
      cases hapi : refreshTokenApi hh <;> simp [hapi]
  | runCont c' =>
    cases htc' : s.tasks c' <;> simp [step, stepCont, htc']
  | retryResp c' res =>
    cases res with
    | ok r => cases htc' : s.tasks c' <;> simp [step, stepRetry, htc']
    | error m => cases htc' : s.tasks c' <;> simp [step, stepRetry, htc']

/-! ## Claims -/

/-- C3 (code-bug evidence): `useLogin`'s `onSuccess` calls `setAuth` with
only two arguments and `LoginResponse` carries no `refresh_token` field, so
after every successful login the store holds the user identity and the
access token with `isAuthenticated` true, but its `refreshToken` is left
`none` (JavaScript `undefined`) — never populated from the login
response. -/
theorem useLogin_never_stores_refresh_token (response : LoginResponse) (s : AuthState) :
    (useLoginOnSuccess response s).isAuthenticated = true ∧
    (useLoginOnSuccess response s).user =
      some ⟨response.id, response.name, response.username⟩ ∧
    (useLoginOnSuccess response s).accessToken = some response.access_token ∧
    (useLoginOnSuccess response s).refreshToken = none :=
  ⟨rfl, rfl, rfl, rfl⟩

/-- C7 (counterexample): `setAuth` does not always leave all three of
`user`, `accessToken`, `refreshToken` non-empty.  The very call shape the
repository makes (`useLogin`, the component tests) passes no refresh token,
yielding `isAuthenticated = true` with `refreshToken` empty; and even with
all three arguments supplied, empty-string tokens are stored as given. -/
theorem setAuth_nonempty_as_stated_fails :
    (setAuth ⟨"u1", "Alice", "alice"⟩ (some "A1") none initialAuthState).isAuthenticated
      = true ∧
    (setAuth ⟨"u1", "Alice", "alice"⟩ (some "A1") none initialAuthState).refreshToken
      = none ∧
    truthy (setAuth ⟨"u1", "Alice", "alice"⟩ (some "") (some "R1")
      initialAuthState).accessToken = false := by
  exact ⟨rfl, rfl, rfl⟩

/-- C7 (amended): `setAuth` atomically replaces the whole store state in a
single update — `isAuthenticated` becomes true and the three fields hold
exactly its arguments, hence they are non-empty whenever the supplied
arguments are non-empty; `logout` atomically resets the whole store state
to the empty session.  No intermediate state exists: each operation is one
total state replacement. -/
theorem setAuth_logout_atomic :
    (∀ (u : User) (a r : Option String) (s : AuthState),
      setAuth u a r s =
        { isAuthenticated := true, user := some u, accessToken := a, refreshToken := r }) ∧
    (∀ (u : User) (a r : Option String) (s : AuthState),
      truthy a = true → truthy r = true →
      (setAuth u a r s).isAuthenticated = true ∧
      (setAuth u a r s).user = some u ∧
      truthy (setAuth u a r s).accessToken = true ∧
      truthy (setAuth u a r s).refreshToken = true) ∧
    (∀ s : AuthState, logout s =
      { isAuthenticated := false, user := none, accessToken := none, refreshToken := none }) :=
  ⟨fun _ _ _ _ => rfl,
   fun _ a r _ ha hr => ⟨rfl, rfl, ha, hr⟩,
   fun _ => rfl⟩

/-- C7 witness: the amended statement instantiated at a fully populated,
non-empty call. -/
theorem setAuth_logout_atomic_witness :
    truthy (some "A1") = true ∧ truthy (some "R1") = true ∧
    ((setAuth ⟨"u1", "Alice", "alice"⟩ (some "A1") (some "R1") initialAuthState).isAuthenticated
        = true ∧
     (setAuth ⟨"u1", "Alice", "alice"⟩ (some "A1") (some "R1") initialAuthState).user
        = some ⟨"u1", "Alice", "alice"⟩ ∧
     truthy (setAuth ⟨"u1", "Alice", "alice"⟩ (some "A1") (some "R1")
        initialAuthState).accessToken = true ∧
     truthy (setAuth ⟨"u1", "Alice", "alice"⟩ (some "A1") (some "R1")
        initialAuthState).refreshToken = true) :=
  ⟨by decide, by decide,
   setAuth_logout_atomic.2.1 ⟨"u1", "Alice", "alice"⟩ (some "A1") (some "R1")
     initialAuthState (by decide) (by decide)⟩

/-- C8 (confirmed): `setAccessToken` replaces exactly the `accessToken`
field, and at a successful refresh settlement the store is updated through
`setAccessToken` only — `user`, `refreshToken` and `isAuthenticated` are
untouched; in particular the `refresh_token` returned by the refresh
endpoint is never written to the store. -/
theorem setAccessToken_only_access_token :
    (∀ (tok : String) (s : AuthState),
      (setAccessToken tok s).accessToken = some tok ∧
      (setAccessToken tok s).user = s.user ∧
      (setAccessToken tok s).refreshToken = s.refreshToken ∧
      (setAccessToken tok s).isAuthenticated = s.isAuthenticated) ∧
    (∀ (s : Sys) (c : Nat) (rtok : String) (hh : RefreshHttp) (rr : RefreshTokenResponse),
      s.tasks c = .refreshing rtok → refreshTokenApi hh = .ok rr →
      (step s (.refreshResp c hh)).store = setAccessToken rr.access_token s.store ∧
      (step s (.refreshResp c hh)).store.accessToken = some rr.access_token ∧
      (step s (.refreshResp c hh)).store.refreshToken = s.store.refreshToken ∧
      (step s (.refreshResp c hh)).store.user = s.store.user ∧
      (step s (.refreshResp c hh)).store.isAuthenticated = s.store.isAuthenticated) := by
  constructor
  · intro tok s
    exact ⟨rfl, rfl, rfl, rfl⟩
  · intro s c rtok hh rr htc hapi
    refine ⟨?_, ?_, ?_, ?_, ?_⟩ <;> simp [step, stepRefresh, htc, hapi, setAccessToken]

/-- C8 witness: the refresh settlement conclusion instantiated at the
mid-refresh fixture with a concrete refresh payload. -/
theorem setAccessToken_only_access_token_witness :
    wSys.tasks 0 = .refreshing "R0" ∧
    refreshTokenApi (.resp 200 none ⟨"A2", "R2", "bearer", 3600⟩) =
      .ok ⟨"A2", "R2", "bearer", 3600⟩ ∧
    ((step wSys (.refreshResp 0 (.resp 200 none ⟨"A2", "R2", "bearer", 3600⟩))).store =
        setAccessToken "A2" wSys.store ∧
     (step wSys (.refreshResp 0 (.resp 200 none ⟨"A2", "R2", "bearer", 3600⟩))).store.accessToken
        = some "A2" ∧
     (step wSys (.refreshResp 0 (.resp 200 none ⟨"A2", "R2", "bearer", 3600⟩))).store.refreshToken
        = wSys.store.refreshToken ∧
     (step wSys (.refreshResp 0 (.resp 200 none ⟨"A2", "R2", "bearer", 3600⟩))).store.user
        = wSys.store.user ∧
     (step wSys (.refreshResp 0 (.resp 200 none ⟨"A2", "R2", "bearer", 3600⟩))).store.isAuthenticated
        = wSys.store.isAuthenticated) :=
  ⟨rfl, rfl,
   setAccessToken_only_access_token.2 wSys 0 "R0" (.resp 200 none ⟨"A2", "R2", "bearer", 3600⟩)
     ⟨"A2", "R2", "bearer", 3600⟩ rfl rfl⟩

/-- C6 (counterexample): a 401 received while the STORE's refreshToken is
absent can still trigger the refresh endpoint, because `authFetch` consults
the snapshot taken at invocation time (line 36), not the store at response
time.  Caller 0's refresh fails and `logout()` clears the store; caller 1,
whose call began earlier, then receives its 401 with
`store.refreshToken = none` — and engages a second refresh with its stale
snapshot "R0" instead of returning the 401 unchanged. -/
theorem no_refresh_without_token_as_stated_fails :
    (run (mkSys popStore) [.start 0, .start 1, .firstResp 0 (.ok ⟨401, "e0"⟩),
      .refreshResp 0 (.netError "network down")]).store.refreshToken = none ∧
    (run (mkSys popStore) [.start 0, .start 1, .firstResp 0 (.ok ⟨401, "e0"⟩),
      .refreshResp 0 (.netError "network down")]).refreshCalls = 1 ∧
    (run (mkSys popStore) [.start 0, .start 1, .firstResp 0 (.ok ⟨401, "e0"⟩),
      .refreshResp 0 (.netError "network down"),
      .firstResp 1 (.ok ⟨401, "e1"⟩)]).refreshCalls = 2 ∧
    (run (mkSys popStore) [.start 0, .start 1, .firstResp 0 (.ok ⟨401, "e0"⟩),
      .refreshResp 0 (.netError "network down"),
      .firstResp 1 (.ok ⟨401, "e1"⟩)]).tasks 1 = .refreshing "R0" := by
  decide

/-- C6 (amended): the no-refresh guard keys on the refresh-token SNAPSHOT
read from the store when `authFetch` was invoked: if that snapshot is
absent (or empty, which JavaScript also treats as falsy), a 401 response is
returned to the caller unchanged, the refresh endpoint is not called, and
the coordinator state is untouched.  When no store mutation intervenes
between invocation and response, the snapshot equals the store's current
refreshToken and the claim holds as stated. -/
theorem no_refresh_without_snapshot_token (s : Sys) (c : Nat)
    (snapA snapR : Option String) (r : Response)
    (htc : s.tasks c = .awaitingFirst snapA snapR)
    (hsnap : truthy snapR = false) (h401 : r.status = 401) :
    (step s (.firstResp c (.ok r))).tasks c = .done (.ok r) ∧
    (step s (.firstResp c (.ok r))).refreshCalls = s.refreshCalls ∧
    (step s (.firstResp c (.ok r))).isRefreshing = s.isRefreshing ∧
    (step s (.firstResp c (.ok r))).failedQueue = s.failedQueue := by
  have hcond : (r.status == 401 && truthy snapR) = false := by simp [hsnap]
  refine ⟨?_, ?_, ?_, ?_⟩ <;> simp [step, stepFirst, htc, hcond]

/-- C6 witness: a caller invoked while the session held no refresh token
receives its 401 back unchanged and causes no refresh call. -/
theorem no_refresh_without_snapshot_token_witness :
    (run (mkSys initialAuthState) [.start 2]).tasks 2 = .awaitingFirst none none ∧
    truthy (none : Option String) = false ∧
    (401 : Nat) = 401 ∧
    ((step (run (mkSys initialAuthState) [.start 2])
        (.firstResp 2 (.ok ⟨401, "denied"⟩))).tasks 2 = .done (.ok ⟨401, "denied"⟩) ∧
     (step (run (mkSys initialAuthState) [.start 2])
        (.firstResp 2 (.ok ⟨401, "denied"⟩))).refreshCalls =
       (run (mkSys initialAuthState) [.start 2]).refreshCalls ∧
     (step (run (mkSys initialAuthState) [.start 2])
        (.firstResp 2 (.ok ⟨401, "denied"⟩))).isRefreshing =
       (run (mkSys initialAuthState) [.start 2]).isRefreshing ∧
     (step (run (mkSys initialAuthState) [.start 2])
        (.firstResp 2 (.ok ⟨401, "denied"⟩))).failedQueue =
       (run (mkSys initialAuthState) [.start 2]).failedQueue) :=
  ⟨by decide, by decide, rfl,
   no_refresh_without_snapshot_token (run (mkSys initialAuthState) [.start 2]) 2
     none none ⟨401, "denied"⟩ (by decide) (by decide) rfl⟩

/-- C9 (counterexample): the wrapper's frame guarantee fails as stated for
the class "401 while no refresh token is present": caller 1's 401 arrives
when the store is fully logged out (no refresh token present), yet its
processing sets the refresh-in-progress flag, calls the refresh endpoint
with its stale snapshot, and then writes a new access token into the store
via `setAccessToken`. -/
theorem wrapper_frame_as_stated_fails :
    (run (mkSys popStore) [.start 0, .start 1, .firstResp 0 (.ok ⟨401, "e0"⟩),
      .refreshResp 0 (.netError "network down")]).store =
      { isAuthenticated := false, user := none, accessToken := none, refreshToken := none } ∧
    (run (mkSys popStore) [.start 0, .start 1, .firstResp 0 (.ok ⟨401, "e0"⟩),
      .refreshResp 0 (.netError "network down"),
      .firstResp 1 (.ok ⟨401, "e1"⟩)]).isRefreshing = true ∧
    (run (mkSys popStore) [.start 0, .start 1, .firstResp 0 (.ok ⟨401, "e0"⟩),
      .refreshResp 0 (.netError "network down"), .firstResp 1 (.ok ⟨401, "e1"⟩),
      .refreshResp 1 (.resp 200 none ⟨"A2", "R2", "bearer", 3600⟩)]).store.accessToken
      = some "A2" := by
  decide

/-- C9 (amended): for every `authFetch` call whose first response is not a
401, and for every call whose first response is a 401 while the
refresh-token snapshot read at invocation is absent or empty, the handling
of that response leaves the session store, the refresh-in-progress flag,
the wait queue and the refresh-call count completely unchanged, and
delivers the response to the caller as-is. -/
theorem wrapper_frame_amended (s : Sys) (c : Nat)
    (snapA snapR : Option String) (r : Response)
    (htc : s.tasks c = .awaitingFirst snapA snapR)
    (hcond : r.status = 401 → truthy snapR = false) :
    (step s (.firstResp c (.ok r))).store = s.store ∧
    (step s (.firstResp c (.ok r))).isRefreshing = s.isRefreshing ∧
    (step s (.firstResp c (.ok r))).failedQueue = s.failedQueue ∧
    (step s (.firstResp c (.ok r))).refreshCalls = s.refreshCalls ∧
    (step s (.firstResp c (.ok r))).tasks c = .done (.ok r) := by
  have hfalse : (r.status == 401 && truthy snapR) = false := by
    by_cases h401 : r.status = 401
    · simp [hcond h401]
    · simp [h401]
  refine ⟨?_, ?_, ?_, ?_, ?_⟩ <;> simp [step, stepFirst, htc, hfalse]

/-- C9 witness: a 200 response leaves the whole coordinator and store state
untouched and is returned verbatim. -/
theorem wrapper_frame_amended_witness :
    (run (mkSys popStore) [.start 3]).tasks 3 = .awaitingFirst (some "A0") (some "R0") ∧
    ((run (mkSys popStore) [.start 3]).store = popStore) ∧
    ((step (run (mkSys popStore) [.start 3]) (.firstResp 3 (.ok ⟨200, "fine"⟩))).store =
        (run (mkSys popStore) [.start 3]).store ∧
     (step (run (mkSys popStore) [.start 3]) (.firstResp 3 (.ok ⟨200, "fine"⟩))).isRefreshing =
        (run (mkSys popStore) [.start 3]).isRefreshing ∧
     (step (run (mkSys popStore) [.start 3]) (.firstResp 3 (.ok ⟨200, "fine"⟩))).failedQueue =
        (run (mkSys popStore) [.start 3]).failedQueue ∧
     (step (run (mkSys popStore) [.start 3]) (.firstResp 3 (.ok ⟨200, "fine"⟩))).refreshCalls =
        (run (mkSys popStore) [.start 3]).refreshCalls ∧
     (step (run (mkSys popStore) [.start 3]) (.firstResp 3 (.ok ⟨200, "fine"⟩))).tasks 3 =
        .done (.ok ⟨200, "fine"⟩)) :=
  ⟨by decide, by decide,
   wrapper_frame_amended (run (mkSys popStore) [.start 3]) 3 (some "A0") (some "R0")
     ⟨200, "fine"⟩ (by decide) (fun h => by cases h)⟩

/-- C10 (confirmed): when the refresh call fails, the two classes of
concurrent callers observe that one failure in different forms — the
initiating caller's `authFetch` promise FULFILLS with the synthetic
`Response` of status 401 and body `JSON.stringify({detail: "認証が必要です"})`
built on lines 105–108, while every caller queued behind the refresh has
its promise REJECT with the `Error` passed to `processQueue`. -/
theorem refresh_failure_asymmetry (s : Sys) (c : Nat) (rtok : String)
    (hh : RefreshHttp) (m : String)
    (htc : s.tasks c = .refreshing rtok) (hcq : c ∉ s.failedQueue)
    (hapi : refreshTokenApi hh = .error m) :
    (step s (.refreshResp c hh)).tasks c = .done (.ok syntheticAuthResponse) ∧
    syntheticAuthResponse.status = 401 ∧
    syntheticAuthResponse.body = "\x7b\"detail\":\"認証が必要です\"\x7d" ∧
    (∀ q ∈ s.failedQueue, (step s (.refreshResp c hh)).tasks q = .done (.err m)) := by
  refine ⟨by simp [step, stepRefresh, htc, hapi], rfl, rfl, ?_⟩
  intro q hq
  have hqc : q ≠ c := fun h => hcq (h ▸ hq)
  simp [step, stepRefresh, htc, hapi, hqc, hq]

/-- C10 witness: failure settlement of the mid-refresh fixture — caller 0
resolves with the synthetic 401, queued caller 1 rejects with the error. -/
theorem refresh_failure_asymmetry_witness :
    wSys.tasks 0 = .refreshing "R0" ∧
    (0 : Nat) ∉ wSys.failedQueue ∧
    refreshTokenApi (.resp 400 (some "invalid refresh token") ⟨"", "", "", 0⟩) =
      .error "invalid refresh token" ∧
    ((step wSys (.refreshResp 0 (.resp 400 (some "invalid refresh token") ⟨"", "", "", 0⟩))).tasks 0
        = .done (.ok syntheticAuthResponse) ∧
     syntheticAuthResponse.status = 401 ∧
     syntheticAuthResponse.body = "\x7b\"detail\":\"認証が必要です\"\x7d" ∧
     (∀ q ∈ wSys.failedQueue,
       (step wSys (.refreshResp 0 (.resp 400 (some "invalid refresh token") ⟨"", "", "", 0⟩))).tasks q
         = .done (.err "invalid refresh token"))) :=
  ⟨rfl, by decide, rfl,
   refresh_failure_asymmetry wSys 0 "R0"
     (.resp 400 (some "invalid refresh token") ⟨"", "", "", 0⟩) "invalid refresh token"
     rfl (by decide) rfl⟩

/-- C5 (confirmed): when the refresh endpoint call fails (network
rejection, or a non-2xx response such as an invalid/expired refresh
token), the settlement is one synchronous block: every caller queued
during that refresh is rejected with that same error, the session store is
cleared via `logout`, the refresh-in-progress flag is reset to false and
the wait queue is emptied.  The second conjunct shows each caller queued
while the refresh was outstanding is still in the queue at settlement
time, so the batch release covers everyone queued during that refresh. -/
theorem refresh_failure_batch :
    (∀ (s : Sys) (c : Nat) (rtok : String) (hh : RefreshHttp) (m : String),
      s.tasks c = .refreshing rtok → refreshTokenApi hh = .error m →
      (∀ q ∈ s.failedQueue, q ≠ c →
        (step s (.refreshResp c hh)).tasks q = .done (.err m)) ∧
      (step s (.refreshResp c hh)).store = logout s.store ∧
      (step s (.refreshResp c hh)).store =
        { isAuthenticated := false, user := none, accessToken := none, refreshToken := none } ∧
      (step s (.refreshResp c hh)).isRefreshing = false ∧
      (step s (.refreshResp c hh)).failedQueue = []) ∧
    (∀ (evs : List Ev) (s : Sys) (c q : Nat) (rtok : String), Inv s →
      s.tasks c = .refreshing rtok → s.tasks q = .queued →
      (run s evs).tasks c = .refreshing rtok →
      (run s evs).tasks q = .queued ∧ q ∈ (run s evs).failedQueue) := by
  constructor
  · intro s c rtok hh m htc hapi
    refine ⟨?_, ?_, ?_, ?_, ?_⟩
    · intro q hq hqc
      simp [step, stepRefresh, htc, hapi, hqc, hq]
    · simp [step, stepRefresh, htc, hapi]
    · simp [step, stepRefresh, htc, hapi, logout]
    · simp [step, stepRefresh, htc, hapi]
    · simp [step, stepRefresh, htc, hapi]
  · intro evs s c q rtok hInv htc hq hfin
    have hq' : (run s evs).tasks q = .queued := queued_persists evs s hInv htc hfin hq
    exact ⟨hq', ((Inv_run hInv evs).queue_iff q).mpr hq'⟩

/-- C5 witness: the failure settlement instantiated at the mid-refresh
fixture with a 400 "invalid refresh token" response. -/
theorem refresh_failure_batch_witness :
    wSys.tasks 0 = .refreshing "R0" ∧
    refreshTokenApi (.resp 400 (some "invalid refresh token") ⟨"", "", "", 0⟩) =
      .error "invalid refresh token" ∧
    ((∀ q ∈ wSys.failedQueue, q ≠ 0 →
        (step wSys (.refreshResp 0 (.resp 400 (some "invalid refresh token") ⟨"", "", "", 0⟩))).tasks q
          = .done (.err "invalid refresh token")) ∧
     (step wSys (.refreshResp 0 (.resp 400 (some "invalid refresh token") ⟨"", "", "", 0⟩))).store
        = logout wSys.store ∧
     (step wSys (.refreshResp 0 (.resp 400 (some "invalid refresh token") ⟨"", "", "", 0⟩))).store
        = { isAuthenticated := false, user := none, accessToken := none, refreshToken := none } ∧
     (step wSys (.refreshResp 0 (.resp 400 (some "invalid refresh token") ⟨"", "", "", 0⟩))).isRefreshing
        = false ∧
     (step wSys (.refreshResp 0 (.resp 400 (some "invalid refresh token") ⟨"", "", "", 0⟩))).failedQueue
        = []) :=
  ⟨rfl, rfl,
   refresh_failure_batch.1 wSys 0 "R0"
     (.resp 400 (some "invalid refresh token") ⟨"", "", "", 0⟩) "invalid refresh token"
     rfl rfl⟩

/-- C4 (confirmed): for every single `authFetch` invocation the refresh
endpoint is engaged at most once and the original request goes to the
network at most twice (the first issue plus at most one retry), along
every schedule; and a retried request that again returns a 401 — whether
the caller led the refresh or was released from the queue — is returned to
the caller as-is, with no further refresh call and no further retry. -/
theorem no_double_retry :
    (∀ (c : Nat) (store0 : AuthState) (evs : List Ev),
      countAlong (mkSys store0) evs (engages c) ≤ 1) ∧
    (∀ (c : Nat) (store0 : AuthState) (evs : List Ev),
      countAlong (mkSys store0) evs (issuesFetch c) ≤ 2) ∧
    (∀ (s : Sys) (c : Nat) (tok : String) (r : Response),
      s.tasks c = .awaitingRetryL tok → r.status = 401 →
      (step s (.retryResp c (.ok r))).tasks c = .done (.ok r) ∧
      (step s (.retryResp c (.ok r))).refreshCalls = s.refreshCalls ∧
      (step s (.retryResp c (.ok r))).isRefreshing = false) ∧
    (∀ (s : Sys) (c : Nat) (tok : Option String) (r : Response),
      s.tasks c = .awaitingRetryQ tok → r.status = 401 →
      (step s (.retryResp c (.ok r))).tasks c = .done (.ok r) ∧
      (step s (.retryResp c (.ok r))).refreshCalls = s.refreshCalls ∧
      (step s (.retryResp c (.ok r))).isRefreshing = s.isRefreshing) := by
  refine ⟨?_, ?_, ?_, ?_⟩
  · intro c store0 evs
    exact engages_le_one c evs (mkSys store0) (Inv_mkSys store0)
  · intro c store0 evs
    exact le_trans (countAlong_or_le (startIssue c) (retryIssue c) evs (mkSys store0))
      (Nat.add_le_add (startIssue_le_one c evs (mkSys store0) (Inv_mkSys store0))
        (retryIssue_le_one c evs (mkSys store0) (Inv_mkSys store0)))
  · intro s c tok r htc _h401
    refine ⟨?_, ?_, ?_⟩ <;> simp [step, stepRetry, htc]
  · intro s c tok r htc _h401
    refine ⟨?_, ?_, ?_⟩ <;> simp [step, stepRetry, htc]

/-- C4 witness: a leader whose retried request returns 401 again gets that
401 back with the flag dropped and no new refresh call. -/
theorem no_double_retry_witness :
    wSysL.tasks 0 = .awaitingRetryL "A2" ∧
    (401 : Nat) = 401 ∧
    ((step wSysL (.retryResp 0 (.ok ⟨401, "still denied"⟩))).tasks 0 =
        .done (.ok ⟨401, "still denied"⟩) ∧
     (step wSysL (.retryResp 0 (.ok ⟨401, "still denied"⟩))).refreshCalls = wSysL.refreshCalls ∧
     (step wSysL (.retryResp 0 (.ok ⟨401, "still denied"⟩))).isRefreshing = false) :=
  ⟨rfl, rfl,
   no_double_retry.2.2.1 wSysL 0 "A2" ⟨401, "still denied"⟩ rfl rfl⟩

/-- C1 (counterexample): two `authFetch` calls overlapping on one event
loop, each receiving a 401 while the store holds the refresh token "R0",
for which the refresh endpoint is called twice, not once: caller 1's
request is issued before caller 0's cycle finishes, but its 401 arrives
after caller 0's `finally` reset the flag, so caller 1 starts its own
refresh.  Single-flight deduplication only spans 401s arriving while a
refresh is in flight. -/
theorem single_flight_as_stated_fails :
    (run (mkSys popStore) [.start 0, .start 1]).tasks 1 =
      .awaitingFirst (some "A0") (some "R0") ∧
    (run (mkSys popStore) [.start 0, .start 1]).store.refreshToken = some "R0" ∧
    (run (mkSys popStore) [.start 0, .start 1, .firstResp 0 (.ok ⟨401, "e0"⟩),
      .refreshResp 0 (.resp 200 none ⟨"A2", "R2", "bearer", 3600⟩),
      .retryResp 0 (.ok ⟨200, "ok0"⟩)]).store.refreshToken = some "R0" ∧
    (run (mkSys popStore) [.start 0, .start 1, .firstResp 0 (.ok ⟨401, "e0"⟩),
      .refreshResp 0 (.resp 200 none ⟨"A2", "R2", "bearer", 3600⟩),
      .retryResp 0 (.ok ⟨200, "ok0"⟩), .firstResp 1 (.ok ⟨401, "e1"⟩),
      .refreshResp 1 (.resp 200 none ⟨"A3", "R3", "bearer", 3600⟩),
      .retryResp 1 (.ok ⟨200, "ok1"⟩)]).tasks 0 = .done (.ok ⟨200, "ok0"⟩) ∧
    (run (mkSys popStore) [.start 0, .start 1, .firstResp 0 (.ok ⟨401, "e0"⟩),
      .refreshResp 0 (.resp 200 none ⟨"A2", "R2", "bearer", 3600⟩),
      .retryResp 0 (.ok ⟨200, "ok0"⟩), .firstResp 1 (.ok ⟨401, "e1"⟩),
      .refreshResp 1 (.resp 200 none ⟨"A3", "R3", "bearer", 3600⟩),
      .retryResp 1 (.ok ⟨200, "ok1"⟩)]).tasks 1 = .done (.ok ⟨200, "ok1"⟩) ∧
    (run (mkSys popStore) [.start 0, .start 1, .firstResp 0 (.ok ⟨401, "e0"⟩),
      .refreshResp 0 (.resp 200 none ⟨"A2", "R2", "bearer", 3600⟩),
      .retryResp 0 (.ok ⟨200, "ok0"⟩), .firstResp 1 (.ok ⟨401, "e1"⟩),
      .refreshResp 1 (.resp 200 none ⟨"A3", "R3", "bearer", 3600⟩),
      .retryResp 1 (.ok ⟨200, "ok1"⟩)]).refreshCalls = 2 := by
  decide

/-- C1 (amended): single-flight holds for the group of callers whose 401s
arrive while the one refresh call is outstanding.  In every reachable
state the coordinator invariant holds; while `isRefreshing` is true no
dispatch makes a refresh call, so the refresh started by the leader is the
only one during its cycle; when that refresh settles successfully the
store gets the new access token and every queued caller is resolved with
it (each then retries with the store's current token), the leader retrying
with it too; when it settles with a failure every queued caller is
rejected with that same failure and the leader resolves with the synthetic
401; and a caller queued while the refresh is outstanding is still queued
at settlement, so the batch release reaches all of them. -/
theorem single_flight_amended :
    (∀ (store0 : AuthState) (evs : List Ev), Inv (run (mkSys store0) evs)) ∧
    (∀ (s : Sys) (e : Ev), s.isRefreshing = true →
      (step s e).refreshCalls = s.refreshCalls) ∧
    (∀ (s : Sys) (c : Nat) (rtok : String) (hh : RefreshHttp) (rr : RefreshTokenResponse),
      s.tasks c = .refreshing rtok → c ∉ s.failedQueue → refreshTokenApi hh = .ok rr →
      (∀ q ∈ s.failedQueue,
        (step s (.refreshResp c hh)).tasks q = .resolvedQ (some rr.access_token)) ∧
      (step s (.refreshResp c hh)).tasks c = .awaitingRetryL rr.access_token ∧
      (step s (.refreshResp c hh)).store.accessToken = some rr.access_token ∧
      (step s (.refreshResp c hh)).failedQueue = []) ∧
    (∀ (s : Sys) (c : Nat) (rtok : String) (hh : RefreshHttp) (m : String),
      s.tasks c = .refreshing rtok → c ∉ s.failedQueue → refreshTokenApi hh = .error m →
      (∀ q ∈ s.failedQueue, (step s (.refreshResp c hh)).tasks q = .done (.err m)) ∧
      (step s (.refreshResp c hh)).tasks c = .done (.ok syntheticAuthResponse) ∧
      (step s (.refreshResp c hh)).isRefreshing = false) ∧
    (∀ (s : Sys) (q : Nat) (tok : Option String),
      s.tasks q = .resolvedQ tok →
      (step s (.runCont q)).tasks q = .awaitingRetryQ s.store.accessToken) ∧
    (∀ (evs : List Ev) (s : Sys) (c q : Nat) (rtok : String), Inv s →
      s.tasks c = .refreshing rtok → s.tasks q = .queued →
      (run s evs).tasks c = .refreshing rtok → (run s evs).tasks q = .queued) := by
  refine ⟨?_, ?_, ?_, ?_, ?_, ?_⟩
  · intro store0 evs
    exact Inv_run (Inv_mkSys store0) evs
  · intro s e hflag
    exact refreshCalls_flag e hflag
  · intro s c rtok hh rr htc hcq hapi
    refine ⟨?_, ?_, ?_, ?_⟩
    · intro q hq
      have hqc : q ≠ c := fun h => hcq (h ▸ hq)
      simp [step, stepRefresh, htc, hapi, hqc, hq]
    · simp [step, stepRefresh, htc, hapi]
    · simp [step, stepRefresh, htc, hapi, setAccessToken]
    · simp [step, stepRefresh, htc, hapi]
  · intro s c rtok hh m htc hcq hapi
    refine ⟨?_, ?_, ?_⟩
    · intro q hq
      have hqc : q ≠ c := fun h => hcq (h ▸ hq)
      simp [step, stepRefresh, htc, hapi, hqc, hq]
    · simp [step, stepRefresh, htc, hapi]
    · simp [step, stepRefresh, htc, hapi]
  · intro s q tok htq
    simp [step, stepCont, htq]
  · intro evs s c q rtok hInv htc hq hfin
    exact queued_persists evs s hInv htc hfin hq

/-- C1 witness: the success settlement instantiated at the mid-refresh
fixture — queued caller 1 is resolved with the fresh token "A2" that the
leader stored. -/
theorem single_flight_amended_witness :
    wSys.tasks 0 = .refreshing "R0" ∧
    (0 : Nat) ∉ wSys.failedQueue ∧
    refreshTokenApi (.resp 200 none ⟨"A2", "R2", "bearer", 3600⟩) =
      .ok ⟨"A2", "R2", "bearer", 3600⟩ ∧
    ((∀ q ∈ wSys.failedQueue,
        (step wSys (.refreshResp 0 (.resp 200 none ⟨"A2", "R2", "bearer", 3600⟩))).tasks q =
          .resolvedQ (some "A2")) ∧
     (step wSys (.refreshResp 0 (.resp 200 none ⟨"A2", "R2", "bearer", 3600⟩))).tasks 0 =
        .awaitingRetryL "A2" ∧
     (step wSys (.refreshResp 0 (.resp 200 none ⟨"A2", "R2", "bearer", 3600⟩))).store.accessToken =
        some "A2" ∧
     (step wSys (.refreshResp 0 (.resp 200 none ⟨"A2", "R2", "bearer", 3600⟩))).failedQueue = []) :=
  ⟨rfl, by decide, rfl,
   single_flight_amended.2.2.1 wSys 0 "R0" (.resp 200 none ⟨"A2", "R2", "bearer", 3600⟩)
     ⟨"A2", "R2", "bearer", 3600⟩ rfl (by decide) rfl⟩

/-- C2 (code-bug evidence): the settlement of a SUCCESSFUL refresh is not
atomic with the flag reset — the store update and queue drain happen at
settlement (lines 79–82) but `isRefreshing` is only reset by the `finally`
(line 110) after the leader's retry `await fetch` (line 85) completes.  In
the window between, a 401 caller enqueues (flag still true, queue already
drained); when the leader's retry then completes, the flag drops without
any further drain: the final state has `isRefreshing = false` with a
non-empty queue, and caller 1 is left suspended forever — refuting
"whenever the flag is false the wait queue is empty" and "no caller that
enqueued while the flag was true is left unreleased". -/
theorem settlement_gap_strands_waiter :
    (run (mkSys popStore) [.start 0, .start 1, .firstResp 0 (.ok ⟨401, "e0"⟩),
      .refreshResp 0 (.resp 200 none ⟨"A2", "R2", "bearer", 3600⟩),
      .firstResp 1 (.ok ⟨401, "e1"⟩)]).isRefreshing = true ∧
    (run (mkSys popStore) [.start 0, .start 1, .firstResp 0 (.ok ⟨401, "e0"⟩),
      .refreshResp 0 (.resp 200 none ⟨"A2", "R2", "bearer", 3600⟩),
      .firstResp 1 (.ok ⟨401, "e1"⟩)]).failedQueue = [1] ∧
    (run (mkSys popStore) [.start 0, .start 1, .firstResp 0 (.ok ⟨401, "e0"⟩),
      .refreshResp 0 (.resp 200 none ⟨"A2", "R2", "bearer", 3600⟩),
      .firstResp 1 (.ok ⟨401, "e1"⟩), .retryResp 0 (.ok ⟨200, "ok"⟩)]).isRefreshing = false ∧
    (run (mkSys popStore) [.start 0, .start 1, .firstResp 0 (.ok ⟨401, "e0"⟩),
      .refreshResp 0 (.resp 200 none ⟨"A2", "R2", "bearer", 3600⟩),
      .firstResp 1 (.ok ⟨401, "e1"⟩), .retryResp 0 (.ok ⟨200, "ok"⟩)]).failedQueue = [1] ∧
    (run (mkSys popStore) [.start 0, .start 1, .firstResp 0 (.ok ⟨401, "e0"⟩),
      .refreshResp 0 (.resp 200 none ⟨"A2", "R2", "bearer", 3600⟩),
      .firstResp 1 (.ok ⟨401, "e1"⟩), .retryResp 0 (.ok ⟨200, "ok"⟩)]).tasks 1 = .queued ∧
    (run (mkSys popStore) [.start 0, .start 1, .firstResp 0 (.ok ⟨401, "e0"⟩),
      .refreshResp 0 (.resp 200 none ⟨"A2", "R2", "bearer", 3600⟩),
      .firstResp 1 (.ok ⟨401, "e1"⟩), .retryResp 0 (.ok ⟨200, "ok"⟩)]).tasks 0 =
      .done (.ok ⟨200, "ok"⟩) := by
  decide

end AuthCore
